import Mathlib

/-!
Verification of the chartjs-mcp-server specification against `src/index.ts`.

The development shallowly embeds the JavaScript/TypeScript source:
JavaScript values are the inductive `JSValue`; the `JSON.parse` builtin is
modelled by a fuel-indexed recursive parser over the JSON grammar (numeric
literals are modelled by their leading integer part, floating point being out
of scope); truthiness and `typeof` are modelled by the functions `truthy` and
`jsTypeof`.  Fallible code is modelled with `Except`/`Option`.
-/

namespace ChartServer

/-- A JavaScript value, as far as the server inspects values: `null`,
`undefined` (the result of a missing property lookup), booleans, numbers,
strings, arrays and plain objects (field lists in insertion order). -/
inductive JSValue where
  | null
  | undefined
  | bool (b : Bool)
  | num (n : Int)
  | str (s : String)
  | arr (elems : List JSValue)
  | obj (fields : List (String × JSValue))

/-- JavaScript truthiness (`!v` is `!truthy v`).  `NaN` is not modelled since
no numeric coercion occurs in the embedded code. -/
def truthy : JSValue → Bool
  | .null => false
  | .undefined => false
  | .bool b => b
  | .num n => n != 0
  | .str s => s != ""
  | .arr _ => true
  | .obj _ => true

/-- The JavaScript `typeof` operator (note `typeof null = "object"`). -/
def jsTypeof : JSValue → String
  | .null => "object"
  | .undefined => "undefined"
  | .bool _ => "boolean"
  | .num _ => "number"
  | .str _ => "string"
  | .arr _ => "object"
  | .obj _ => "object"

/-- Property lookup `v[key]` for a string key: on objects the last binding of
the key wins (matching assignment order in `JSON.parse` and object literals);
every other receiver yields `undefined` for the string keys the server uses. -/
def getProp (v : JSValue) (key : String) : JSValue :=
  match v with
  | .obj fields =>
    (fields.foldl (fun acc p => if p.1 == key then some p.2 else acc) none).getD .undefined
  | _ => .undefined

/-- The `Array.isArray` builtin. -/
def isArrayVal : JSValue → Bool
  | .arr _ => true
  | _ => false

/-- The `.length` of an array value (only ever applied to arrays in the source). -/
def arrLen : JSValue → Nat
  | .arr l => l.length
  | _ => 0

/-! ### The `JSON.parse` builtin, modelled -/

def quoteChar : Char := Char.ofNat 34
def backslashChar : Char := Char.ofNat 92
def lbraceCh : Char := Char.ofNat 123
def rbraceCh : Char := Char.ofNat 125
def lbrackCh : Char := Char.ofNat 91
def rbrackCh : Char := Char.ofNat 93

/-- Does the first list occur as a prefix of the second? -/
def listStarts : List Char → List Char → Bool
  | [], _ => true
  | _ :: _, [] => false
  | n :: ns, h :: hs => n == h && listStarts ns hs

def isJsonWs (c : Char) : Bool :=
  c == ' ' || c == Char.ofNat 9 || c == Char.ofNat 10 || c == Char.ofNat 13

def skipWs : List Char → List Char
  | [] => []
  | c :: cs => if isJsonWs c then skipWs cs else c :: cs

def hexVal (c : Char) : Option Nat :=
  let n := c.toNat
  if 48 ≤ n && n ≤ 57 then some (n - 48)
  else if 97 ≤ n && n ≤ 102 then some (n - 87)
  else if 65 ≤ n && n ≤ 70 then some (n - 55)
  else none

/-- Body of a JSON string literal, after the opening quote: returns the decoded
string and the input after the closing quote.  Standard escapes and `\uXXXX`
for valid scalar values are decoded; lone surrogates are not modelled. -/
def parseStringBody (acc : List Char) (cs : List Char) : Option (String × List Char) :=
  match cs with
  | [] => none
  | c :: cs1 =>
    if c == quoteChar then some (String.mk acc.reverse, cs1)
    else if c == backslashChar then
      match cs1 with
      | [] => none
      | e :: cs2 =>
        if e == quoteChar then parseStringBody (quoteChar :: acc) cs2
        else if e == backslashChar then parseStringBody (backslashChar :: acc) cs2
        else if e == '/' then parseStringBody ('/' :: acc) cs2
        else if e == 'b' then parseStringBody (Char.ofNat 8 :: acc) cs2
        else if e == 'f' then parseStringBody (Char.ofNat 12 :: acc) cs2
        else if e == 'n' then parseStringBody (Char.ofNat 10 :: acc) cs2
        else if e == 'r' then parseStringBody (Char.ofNat 13 :: acc) cs2
        else if e == 't' then parseStringBody (Char.ofNat 9 :: acc) cs2
        else if e == 'u' then
          match cs2 with
          | h1 :: h2 :: h3 :: h4 :: cs3 =>
            match hexVal h1, hexVal h2, hexVal h3, hexVal h4 with
            | some a, some b, some c2, some d =>
              let code := ((a * 16 + b) * 16 + c2) * 16 + d
              if code.isValidChar then
                parseStringBody (Char.ofNat code :: acc) cs3
              else none
            | _, _, _, _ => none
          | _ => none
        else none
    else if c.toNat < 32 then none
    else parseStringBody (c :: acc) cs1

/-- Leading decimal digits of the input, and the rest. -/
def takeDigits (cs : List Char) : List Char × List Char :=
  match cs with
  | [] => ([], [])
  | c :: rest =>
    if !c.isDigit then ([], c :: rest)
    else
      let tail := takeDigits rest
      (c :: tail.1, tail.2)

def digitsToNat (ds : List Char) : Nat :=
  ds.foldl (fun acc c => 10 * acc + (c.toNat - 48)) 0

/-- Consume an optional JSON fraction and exponent.  The digits are required
by the grammar but their value is discarded: numeric literals are modelled by
their leading integer part (floating point is out of scope). -/
def skipFracExp (cs : List Char) : Option (List Char) :=
  let afterFrac : Option (List Char) :=
    match cs with
    | c :: r =>
      if c == '.' then
        let p := takeDigits r
        if p.1.isEmpty then none else some p.2
      else some cs
    | [] => some cs
  match afterFrac with
  | none => none
  | some cs2 =>
    match cs2 with
    | e :: r =>
      if e == 'e' || e == 'E' then
        let r2 : List Char :=
          match r with
          | s :: r1 => if s == '+' || s == '-' then r1 else s :: r1
          | [] => []
        let p := takeDigits r2
        if p.1.isEmpty then none else some p.2
      else some cs2
    | [] => some cs2

/-- A JSON number token (`-? int frac? exp?`, no leading zeros). -/
def parseNumber (cs : List Char) : Option (Int × List Char) :=
  let sgn : Bool × List Char :=
    match cs with
    | c :: r => if c == '-' then (true, r) else (false, cs)
    | [] => (false, [])
  match sgn.2 with
  | [] => none
  | c :: rest =>
    if c == '0' then
      match skipFracExp rest with
      | none => none
      | some r2 => some (0, r2)
    else if c.isDigit then
      let p := takeDigits (c :: rest)
      match skipFracExp p.2 with
      | none => none
      | some r2 =>
        let n : Int := (digitsToNat p.1 : Int)
        some (if sgn.1 then -n else n, r2)
    else none

mutual

/-- One JSON value, by recursion on `fuel`. -/
def parseValue (fuel : Nat) (cs : List Char) : Option (JSValue × List Char) :=
  match fuel with
  | 0 => none
  | fuel + 1 =>
    match skipWs cs with
    | [] => none
    | c :: rest =>
      if listStarts "true".toList (c :: rest) then some (.bool true, rest.drop 3)
      else if listStarts "false".toList (c :: rest) then some (.bool false, rest.drop 4)
      else if listStarts "null".toList (c :: rest) then some (.null, rest.drop 3)
      else if c == quoteChar then
        match parseStringBody [] rest with
        | some p => some (.str p.1, p.2)
        | none => none
      else if c == lbrackCh then
        match parseElements fuel rest with
        | some p => some (.arr p.1, p.2)
        | none => none
      else if c == lbraceCh then
        match parseMembers fuel rest with
        | some p => some (.obj p.1, p.2)
        | none => none
      else if c == '-' || c.isDigit then
        match parseNumber (c :: rest) with
        | some p => some (.num p.1, p.2)
        | none => none
      else none

/-- Array elements after `[`, up to and including `]`. -/
def parseElements (fuel : Nat) (cs : List Char) : Option (List JSValue × List Char) :=
  match fuel with
  | 0 => none
  | fuel + 1 =>
    match skipWs cs with
    | [] => none
    | c :: rest =>
      if c == rbrackCh then some ([], rest)
      else
        match parseValue fuel (c :: rest) with
        | none => none
        | some p => parseElementsTail fuel [p.1] p.2

/-- Continuation of an array after one element: `,` element … or `]`. -/
def parseElementsTail (fuel : Nat) (acc : List JSValue) (cs : List Char) :
    Option (List JSValue × List Char) :=
  match fuel with
  | 0 => none
  | fuel + 1 =>
    match skipWs cs with
    | [] => none
    | c :: rest =>
      if c == rbrackCh then some (acc.reverse, rest)
      else if c == ',' then
        match parseValue fuel rest with
        | none => none
        | some p => parseElementsTail fuel (p.1 :: acc) p.2
      else none

/-- Object members after `\x7b`, up to and including `\x7d`. -/
def parseMembers (fuel : Nat) (cs : List Char) :
    Option (List (String × JSValue) × List Char) :=
  match fuel with
  | 0 => none
  | fuel + 1 =>
    match skipWs cs with
    | [] => none
    | c :: rest =>
      if c == rbraceCh then some ([], rest)
      else if c == quoteChar then
        match parseStringBody [] rest with
        | none => none
        | some kp =>
          match skipWs kp.2 with
          | ':' :: r2 =>
            match parseValue fuel r2 with
            | none => none
            | some vp => parseMembersTail fuel [(kp.1, vp.1)] vp.2
          | _ => none
      else none

/-- Continuation of an object after one member: `,` member … or `\x7d`. -/
def parseMembersTail (fuel : Nat) (acc : List (String × JSValue)) (cs : List Char) :
    Option (List (String × JSValue) × List Char) :=
  match fuel with
  | 0 => none
  | fuel + 1 =>
    match skipWs cs with
    | [] => none
    | c :: rest =>
      if c == rbraceCh then some (acc.reverse, rest)
      else if c == ',' then
        match skipWs rest with
        | q :: r1 =>
          if q == quoteChar then
            match parseStringBody [] r1 with
            | none => none
            | some kp =>
              match skipWs kp.2 with
              | ':' :: r2 =>
                match parseValue fuel r2 with
                | none => none
                | some vp => parseMembersTail fuel ((kp.1, vp.1) :: acc) vp.2
              | _ => none
          else none
        | [] => none
      else none

end

/-- The `JSON.parse` builtin: one complete JSON text, whitespace allowed around
it, nothing after it.  The fuel `2 * length + 4` strictly dominates the number
of recursive descents, each of which consumes at least one input character. -/
def jsonParse (s : String) : Option JSValue :=
  match parseValue (2 * s.length + 4) s.toList with
  | some p => if (skipWs p.2).isEmpty then some p.1 else none
  | none => none

/-! ### The config validator, `validateChartConfig` (src/index.ts lines 33-71) -/

/-- Models `const validTypes = ['bar', 'line', 'scatter', 'bubble', 'pie', 'doughnut',
'polarArea', 'radar']` (src/index.ts line 50). -/
def validTypes : List String :=
  ["bar", "line", "scatter", "bubble", "pie", "doughnut", "polarArea", "radar"]

/-- Models `validTypes.includes(config.type)`: membership of a JavaScript value in a
list of strings (`Array.prototype.includes`; a non-string is never a member). -/
def includesStr (l : List String) (v : JSValue) : Bool :=
  match v with
  | .str s => l.contains s
  | _ => false

/-- Checks 2-6 of `validateChartConfig`, applied to the (possibly just parsed)
configuration value (src/index.ts lines 44-70). -/
def validateParsedConfig (config : JSValue) : Except String JSValue :=
  if !truthy config || jsTypeof config != "object" then
    .error "Chart configuration must be an object"
  else if !truthy (getProp config "type") || !includesStr validTypes (getProp config "type") then
    .error ("Invalid chart type. Must be one of: " ++ String.intercalate ", " validTypes)
  else if !truthy (getProp config "data") || jsTypeof (getProp config "data") != "object" then
    .error "Chart configuration must include a data object"
  else if !truthy (getProp (getProp config "data") "datasets")
      || !isArrayVal (getProp (getProp config "data") "datasets") then
    .error "Chart data must include a datasets array"
  else if arrLen (getProp (getProp config "data") "datasets") == 0 then
    .error "Chart data must include at least one dataset"
  else
    .ok config

/-- Models `validateChartConfig` (src/index.ts lines 33-71): a string input is parsed
with `JSON.parse` first (check 1), then the five structural checks run on the
resulting value; a passing input is returned (parsed, if it was a string). -/
def validateChartConfig (chartConfig : JSValue) : Except String JSValue :=
  match chartConfig with
  | .str s =>
    match jsonParse s with
    | none => .error "Chart configuration string is not valid JSON"
    | some config => validateParsedConfig config
  | _ => validateParsedConfig chartConfig

/-! ### The validator as the specification words it (for claim C1)

The spec describes six ordered checks.  `validateSpec` below is written from
those words: "is an object" is read in the JavaScript sense in which the code
operates (arrays are objects, `null` is not a usable object value), "`type`
missing or not one of the eight chart kinds" as membership of the `type`
property in the fixed list, "`data.datasets` missing or not an array" as
`Array.isArray` of the `datasets` property. -/

/-- A value that is an object in the JavaScript sense (`typeof v === "object"`
and usable as one): a plain object or an array. -/
def isObjectValue : JSValue → Bool
  | .obj _ => true
  | .arr _ => true
  | _ => false

/-- The first failing check among the spec's checks (2)-(6), with its message;
`none` when every check passes. -/
def specCheckFailure (config : JSValue) : Option String :=
  if !isObjectValue config then
    some "Chart configuration must be an object"
  else if !includesStr validTypes (getProp config "type") then
    some ("Invalid chart type. Must be one of: " ++ String.intercalate ", " validTypes)
  else if !isObjectValue (getProp config "data") then
    some "Chart configuration must include a data object"
  else if !isArrayVal (getProp (getProp config "data") "datasets") then
    some "Chart data must include a datasets array"
  else if arrLen (getProp (getProp config "data") "datasets") == 0 then
    some "Chart data must include at least one dataset"
  else
    none

/-- The six-check ladder exactly as the specification words it: check (1) is
JSON parsing of string input, checks (2)-(6) are `specCheckFailure`, and an
input failing no check is returned unchanged (parsed, if it was a string). -/
def validateSpec (input : JSValue) : Except String JSValue :=
  match input with
  | .str s =>
    match jsonParse s with
    | none => .error "Chart configuration string is not valid JSON"
    | some config =>
      match specCheckFailure config with
      | some msg => .error msg
      | none => .ok config
  | _ =>
    match specCheckFailure input with
    | some msg => .error msg
    | none => .ok input

/-! ### Equivalence of the source checks with the spec wording -/

/-- The source's check `!config || typeof config !== 'object'` holds exactly
when the value is not an object in the JavaScript sense. -/
theorem objCheckEq (v : JSValue) :
    (!truthy v || jsTypeof v != "object") = !isObjectValue v := by
  cases v <;> simp [truthy, jsTypeof, isObjectValue]

/-- The source's check `!config.type || !validTypes.includes(config.type)`
holds exactly when the `type` value is not one of the eight valid type
strings (each of which is nonempty, hence truthy). -/
theorem typeCheckEq (v : JSValue) :
    (!truthy v || !includesStr validTypes v) = !includesStr validTypes v := by
  cases v <;> try simp [truthy, includesStr]
  case str s =>
    by_cases hs : s = ""
    · subst hs; decide
    · simp [truthy, includesStr, bne_iff_ne, hs]

/-- The source's check `!datasets || !Array.isArray(datasets)` holds exactly
when the value is not an array (arrays are always truthy). -/
theorem arrayCheckEq (v : JSValue) :
    (!truthy v || !isArrayVal v) = !isArrayVal v := by
  cases v <;> simp [truthy, isArrayVal]

/-- Checks 2-6 of the source agree with the spec's ladder on every value. -/
theorem validateParsed_eq_spec (v : JSValue) :
    validateParsedConfig v =
      (match specCheckFailure v with
       | some msg => Except.error msg
       | none => Except.ok v) := by
  unfold validateParsedConfig specCheckFailure
  rw [objCheckEq v, typeCheckEq (getProp v "type"), objCheckEq (getProp v "data"),
      arrayCheckEq (getProp (getProp v "data") "datasets")]
  split_ifs <;> rfl

/-- C1: for every input, the config validator evaluates the six structural
checks in the fixed order — (1) string input failing to parse as JSON, (2)
value not an object, (3) `type` missing or not one of the eight chart kinds,
(4) `data` missing or not an object, (5) `data.datasets` missing or not an
array, (6) `data.datasets` empty — the first failing check determines the
error message, and an input failing no check is returned unchanged (parsed,
if it was a string): `validateChartConfig` coincides with the spec's ordered
ladder `validateSpec` on every input. -/
theorem c1_validator_ladder (input : JSValue) :
    validateChartConfig input = validateSpec input := by
  cases input <;>
    simp only [validateChartConfig, validateSpec, validateParsed_eq_spec]

/-- C10 counterexample: the string `"abc"` (with quotes) parses as JSON to the
string value `abc`, and validating it yields "must be an object", but
supplying the parsed value `abc` directly makes the validator parse it *again*
(it is a string input), which fails as not valid JSON — a different outcome.
So validating a string and validating its parse result do not agree for every
string input that parses as JSON. -/
theorem c10_roundtrip_cex :
    jsonParse "\"abc\"" = some (JSValue.str "abc") ∧
    validateChartConfig (JSValue.str "\"abc\"") =
      Except.error "Chart configuration must be an object" ∧
    validateChartConfig (JSValue.str "abc") =
      Except.error "Chart configuration string is not valid JSON" ∧
    "Chart configuration must be an object" ≠
      "Chart configuration string is not valid JSON" :=
  ⟨rfl, rfl, rfl, by decide⟩

/-- C10 (amended): for every string input `s` that parses as JSON to a value
that is not itself a string, validating `s` yields the same outcome as
validating the parsed value supplied directly; equivalently, validation of a
non-string value and of its JSON serialization agree. -/
theorem c10_parse_agreement (s : String) (v : JSValue)
    (h : jsonParse s = some v) (hn : ∀ t, v ≠ JSValue.str t) :
    validateChartConfig (JSValue.str s) = validateChartConfig v := by
  have h1 : validateChartConfig (JSValue.str s) = validateParsedConfig v := by
    simp [validateChartConfig, h]
  rw [h1]
  cases v <;> first | rfl | exact absurd rfl (hn _)

/-- Witness for `c10_parse_agreement` at the concrete input `"0"`. -/
theorem c10_parse_agreement_witness :
    validateChartConfig (JSValue.str "0") = validateChartConfig (JSValue.num 0) :=
  c10_parse_agreement "0" (JSValue.num 0) rfl (fun _ h => JSValue.noConfusion h)

/-! ### The `generateChart` tool handler (src/index.ts lines 74-163)

The handler validates the configuration, calls the render adapter
(`generateChart` imported from `chart-generator.js`, external to this file)
and shapes the adapter's result envelope into protocol content blocks.  The
envelope (README "API Reference") is `success`, `message` and at most one of
`htmlSnippet`, `buffer`, `pngFilePath`; the handler branches on the truthiness
of those fields, which the model reproduces exactly. -/

/-- The render adapter's result envelope: `\x7b success, htmlSnippet?, buffer?,
pngFilePath?, message \x7d`.  `buffer` carries the PNG bytes. -/
structure RenderResult where
  success : Bool
  htmlSnippet : Option String := none
  buffer : Option (List Nat) := none
  pngFilePath : Option String := none
  message : String
deriving DecidableEq

/-- JavaScript truthiness of an optional string field (`undefined` and the
empty string are falsy). -/
def optTruthy : Option String → Bool
  | some s => s != ""
  | none => false

/-- A protocol content block as the handler builds them: a text block (with an
optional `mimeType` tag) or a base64 image block. -/
inductive ContentBlock where
  | text (text : String) (mimeType : Option String)
  | image (data : String) (mimeType : String)
deriving DecidableEq

def ContentBlock.isImageBlock : ContentBlock → Bool
  | .image _ _ => true
  | .text _ _ => false

/-- The handler's return value: a content array.  The source never sets the
protocol's `isError` flag (modelled with its protocol default `false`), so
every return is a successful protocol response. -/
structure ToolResponse where
  content : List ContentBlock
  isError : Bool := false
deriving DecidableEq

/-- The standard base64 alphabet (RFC 4648, as `Buffer.toString('base64')`). -/
def base64Alphabet : List Char :=
  "ABCDEFGHIJKLMNOPQRSTUVWXYZabcdefghijklmnopqrstuvwxyz0123456789+/".toList

def b64c (n : Nat) : Char := base64Alphabet.getD n 'A'

/-- Base64 encoding of a byte sequence with padding, modelling Node's
`buffer.toString('base64')`. -/
def base64Encode : List Nat → String
  | [] => ""
  | [a] =>
    String.mk [b64c (a / 4), b64c (a % 4 * 16), '=', '=']
  | [a, b] =>
    String.mk [b64c (a / 4), b64c (a % 4 * 16 + b / 16), b64c (b % 16 * 4), '=']
  | a :: b :: c :: rest =>
    String.mk [b64c (a / 4), b64c (a % 4 * 16 + b / 16),
      b64c (b % 16 * 4 + c / 64), b64c (c % 64)] ++ base64Encode rest

/-- The fixed troubleshooting footer appended to a render failure message
(src/index.ts line 157). -/
def troubleshootingFooter : String :=
  "\n\nPlease ensure your configuration follows the Chart.js v4 schema. Common issues:\n- Check data format matches chart type (e.g., scatter charts need \x7bx, y\x7d objects)\n- Verify all required dataset properties are provided\n- Ensure chart type is supported: "
    ++ String.intercalate ", " validTypes

/-- Result shaping (src/index.ts lines 105-161): on success, the first truthy
field among `htmlSnippet`, `buffer`, `pngFilePath` selects the block (with a
fallback text block carrying `message`); on failure, one text block carrying
`message` plus the troubleshooting footer. -/
def shapeRenderResult (result : RenderResult) : ToolResponse :=
  if result.success then
    if optTruthy result.htmlSnippet then
      { content := [ContentBlock.text (result.htmlSnippet.getD "") (some "text/html")] }
    else if result.buffer.isSome then
      { content := [ContentBlock.image (base64Encode (result.buffer.getD [])) "image/png"] }
    else if optTruthy result.pngFilePath then
      { content := [ContentBlock.text (result.pngFilePath.getD "") none] }
    else
      { content := [ContentBlock.text result.message none] }
  else
    { content := [ContentBlock.text (result.message ++ troubleshootingFooter) none] }

/-- The `generateChart` tool handler (src/index.ts lines 85-162), with the
render adapter's result passed as an argument (the adapter is consulted only
when validation succeeds): a validation error is caught and returned as an
`Error: `-prefixed text block; otherwise the render result is shaped. -/
def generateChartHandler (chartConfig : JSValue) (result : RenderResult) : ToolResponse :=
  match validateChartConfig chartConfig with
  | .error msg => { content := [ContentBlock.text ("Error: " ++ msg) none] }
  | .ok _ => shapeRenderResult result

/-! ### The Chart Render Adapter, modelled from the spec -/

/-- A single run of the external charting engine, as the adapter observes it:
either the engine renders (producing image bytes, the markup body for the HTML
fragment, and a fresh identifier used in generated names), or it throws with a
message. -/
inductive EngineRun where
  | rendered (pngBytes : List Nat) (markupBody : String) (freshId : String)
      (okMessage : String)
  | thrown (errMessage : String)

/-- The self-contained HTML fragment for a chart: a `div` with a generated
unique element identifier wrapping the embedded chart markup. -/
def htmlSnippetOf (freshId markupBody : String) : String :=
  "<div id=\x22chart-container-" ++ freshId ++ "\x22>" ++ markupBody ++ "</div>"

/-- The deterministic file location a saved PNG is written to, named from the
generated identifier. -/
def pngPathOf (freshId : String) : String :=
  "chart-" ++ freshId ++ ".png"

/-- Modelled from the spec: the Chart Render Adapter `generateChart` lives in
`src/chart-generator.ts`, which is not among the provided sources; §4.2 of the
spec fixes its contract.  For `html`, the markup fragment (unique per call via
a generated element identifier); for `png` with `saveToFile`, the file path
instead of the raw bytes; for `png` without, the raw bytes; an engine throw is
caught and converted into a `Failure` envelope carrying the message.  Exactly
one of the three payload fields is populated. -/
def renderAdapter (_config : JSValue) (format : String) (saveToFile : Bool)
    (eng : EngineRun) : RenderResult :=
  match eng with
  | .thrown msg => { success := false, message := msg }
  | .rendered bytes body freshId okMsg =>
    if format == "html" then
      { success := true, htmlSnippet := some (htmlSnippetOf freshId body),
        message := okMsg }
    else if saveToFile then
      { success := true, pngFilePath := some (pngPathOf freshId),
        message := okMsg }
    else
      { success := true, buffer := some bytes, message := okMsg }

/-- The tool endpoint end to end: validation, then the (spec-modelled) render
adapter on the parsed configuration, then result shaping — the composition the
`generateChart` tool performs (src/index.ts lines 85-162). -/
def generateChartTool (chartConfig : JSValue) (outputFormat : String)
    (saveToFile : Bool) (eng : EngineRun) : ToolResponse :=
  match validateChartConfig chartConfig with
  | .error msg => { content := [ContentBlock.text ("Error: " ++ msg) none] }
  | .ok parsed => shapeRenderResult (renderAdapter parsed outputFormat saveToFile eng)

/-- A nonempty string prepended to anything is nonempty. -/
theorem append_ne_empty_left (a b : String) (ha : a ≠ "") : a ++ b ≠ "" := by
  intro h
  apply ha
  have h2 := congrArg String.data h
  rw [String.data_append] at h2
  exact String.ext (List.append_eq_nil.mp h2).1

theorem htmlSnippetOf_ne_empty (freshId markupBody : String) :
    htmlSnippetOf freshId markupBody ≠ "" := by
  unfold htmlSnippetOf
  rw [String.append_assoc, String.append_assoc, String.append_assoc]
  exact append_ne_empty_left _ _ (by decide)

theorem pngPathOf_ne_empty (freshId : String) : pngPathOf freshId ≠ "" := by
  unfold pngPathOf
  rw [String.append_assoc]
  exact append_ne_empty_left _ _ (by decide)

/-- Does the first list occur as a contiguous sublist of the second? -/
def listOccurs (needle : List Char) : List Char → Bool
  | [] => listStarts needle []
  | h :: hs => listStarts needle (h :: hs) || listOccurs needle hs

/-- Substring occurrence test over the underlying character lists. -/
def strOccurs (needle hay : String) : Bool :=
  listOccurs needle.toList hay.toList

/-- Every branch of the result shaping yields exactly one content block. -/
theorem shapeRenderResult_length (r : RenderResult) :
    (shapeRenderResult r).content.length = 1 := by
  unfold shapeRenderResult
  split_ifs <;> rfl

/-- A structurally valid sample bar-chart configuration, used as the concrete
valid input of the witnesses. -/
def sampleConfig : JSValue :=
  JSValue.obj [("type", JSValue.str "bar"),
    ("data", JSValue.obj [("datasets", JSValue.arr [JSValue.num 1])])]

/-- C2: whenever validation fails, the tool returns a successful protocol
response (the `isError` flag keeps its default `false`) whose content is
exactly one text block carrying `"Error: "` followed by the validator's
message, for every possible render result — the validation error never
propagates as a protocol-level fault. -/
theorem c2_validation_error_response (chartConfig : JSValue) (msg : String)
    (h : validateChartConfig chartConfig = Except.error msg) (result : RenderResult) :
    generateChartHandler chartConfig result =
      { content := [ContentBlock.text ("Error: " ++ msg) none], isError := false } := by
  unfold generateChartHandler
  rw [h]

/-- Witness for `c2_validation_error_response`: the number `0` is not an
object, and the handler answers with the single error text block. -/
theorem c2_witness :
    generateChartHandler (JSValue.num 0) ⟨true, none, none, none, "m"⟩ =
      { content := [ContentBlock.text ("Error: " ++ "Chart configuration must be an object") none],
        isError := false } :=
  c2_validation_error_response (JSValue.num 0) "Chart configuration must be an object" rfl
    ⟨true, none, none, none, "m"⟩

/-- C9: for every input configuration, every output format, every
`saveToFile` value and every possible render result — including a successful
render result in which none of `htmlSnippet`, `buffer`, `pngFilePath` is
populated — the handler's content array has length exactly one; the excluded
variant is covered by a fallback text block carrying the result's message. -/
theorem c9_singleton_content :
    (∀ c r, (generateChartHandler c r).content.length = 1) ∧
    (∀ c fmt save eng, (generateChartTool c fmt save eng).content.length = 1) ∧
    (∀ r : RenderResult, r.success = true → r.htmlSnippet = none → r.buffer = none →
      r.pngFilePath = none →
      shapeRenderResult r = { content := [ContentBlock.text r.message none] }) := by
  refine ⟨?_, ?_, ?_⟩
  · intro c r
    unfold generateChartHandler
    cases h : validateChartConfig c
    · rfl
    · exact shapeRenderResult_length r
  · intro c fmt save eng
    unfold generateChartTool
    cases h : validateChartConfig c
    · rfl
    · exact shapeRenderResult_length _
  · intro r h1 h2 h3 h4
    unfold shapeRenderResult
    rw [h1, h2, h3, h4]
    rfl

/-- Witness for `c9_singleton_content`: the fallback branch on a success
result with no payload fields. -/
theorem c9_witness :
    shapeRenderResult ⟨true, none, none, none, "fallback message"⟩ =
      { content := [ContentBlock.text "fallback message" none] } :=
  c9_singleton_content.2.2 ⟨true, none, none, none, "fallback message"⟩ rfl rfl rfl rfl

set_option maxRecDepth 100000 in
/-- C5: for every valid configuration whose render yields the failure
variant, the tool returns exactly one text block whose text is the failure
message followed by the fixed troubleshooting footer, and the footer
enumerates the eight valid chart types and the common data-shape pitfalls. -/
theorem c5_failure_footer (c p : JSValue) (r : RenderResult)
    (hv : validateChartConfig c = Except.ok p) (hf : r.success = false) :
    generateChartHandler c r =
      { content := [ContentBlock.text (r.message ++ troubleshootingFooter) none] } ∧
    (validTypes.all fun t => strOccurs t troubleshootingFooter) = true ∧
    strOccurs "Check data format matches chart type" troubleshootingFooter = true := by
  refine ⟨?_, by decide, by decide⟩
  unfold generateChartHandler
  rw [hv]
  unfold shapeRenderResult
  rw [hf]
  rfl

/-- Witness for `c5_failure_footer`: a valid bar-chart configuration whose
render fails with message `boom`. -/
theorem c5_witness :
    generateChartHandler sampleConfig ⟨false, none, none, none, "boom"⟩ =
      { content := [ContentBlock.text ("boom" ++ troubleshootingFooter) none] } ∧
    (validTypes.all fun t => strOccurs t troubleshootingFooter) = true ∧
    strOccurs "Check data format matches chart type" troubleshootingFooter = true :=
  c5_failure_footer sampleConfig sampleConfig ⟨false, none, none, none, "boom"⟩ rfl rfl

/-- C6: for every valid configuration rendered as PNG, with `saveToFile`
false the result is exactly one image content block whose data is the base64
encoding of the rendered PNG bytes, tagged `image/png`; with `saveToFile`
true (the render yielding a file path instead of bytes) the result is exactly
one text content block carrying the path string. -/
theorem c6_png_blocks (c p : JSValue) (bytes : List Nat) (body fid okMsg : String)
    (hv : validateChartConfig c = Except.ok p) :
    generateChartTool c "png" false (.rendered bytes body fid okMsg) =
      { content := [ContentBlock.image (base64Encode bytes) "image/png"] } ∧
    generateChartTool c "png" true (.rendered bytes body fid okMsg) =
      { content := [ContentBlock.text (pngPathOf fid) none] } := by
  have hpath : optTruthy (some (pngPathOf fid)) = true := by
    simp [optTruthy, bne_iff_ne, pngPathOf_ne_empty fid]
  constructor
  · unfold generateChartTool
    rw [hv]
    rfl
  · unfold generateChartTool
    rw [hv]
    unfold renderAdapter shapeRenderResult
    simp [hpath, show (("png" : String) == "html") = false from rfl,
      show optTruthy none = false from rfl]

/-- Witness for `c6_png_blocks` at a concrete valid configuration and
concrete byte content. -/
theorem c6_witness :
    generateChartTool sampleConfig "png" false (.rendered [77, 97, 110] "b" "id1" "ok") =
      { content := [ContentBlock.image (base64Encode [77, 97, 110]) "image/png"] } ∧
    generateChartTool sampleConfig "png" true (.rendered [77, 97, 110] "b" "id1" "ok") =
      { content := [ContentBlock.text (pngPathOf "id1") none] } :=
  c6_png_blocks sampleConfig sampleConfig [77, 97, 110] "b" "id1" "ok" rfl

/-- C7: for every valid configuration rendered as HTML, the result is exactly
one text content block carrying the markup fragment, tagged with the
`text/html` media type, and it contains no image content block. -/
theorem c7_html_block (c p : JSValue) (save : Bool) (bytes : List Nat)
    (body fid okMsg : String) (hv : validateChartConfig c = Except.ok p) :
    generateChartTool c "html" save (.rendered bytes body fid okMsg) =
      { content := [ContentBlock.text (htmlSnippetOf fid body) (some "text/html")] } ∧
    ((generateChartTool c "html" save (.rendered bytes body fid okMsg)).content.all
      fun b => !b.isImageBlock) = true := by
  have hhtml : optTruthy (some (htmlSnippetOf fid body)) = true := by
    simp [optTruthy, bne_iff_ne, htmlSnippetOf_ne_empty fid body]
  have h1 : generateChartTool c "html" save (.rendered bytes body fid okMsg) =
      { content := [ContentBlock.text (htmlSnippetOf fid body) (some "text/html")] } := by
    unfold generateChartTool
    rw [hv]
    unfold renderAdapter shapeRenderResult
    simp [hhtml, show (("html" : String) == "html") = true from rfl]
  exact ⟨h1, by rw [h1]; rfl⟩

/-- Witness for `c7_html_block` at a concrete valid configuration. -/
theorem c7_witness :
    generateChartTool sampleConfig "html" false (.rendered [1] "inner" "id2" "ok") =
      { content := [ContentBlock.text (htmlSnippetOf "id2" "inner") (some "text/html")] } ∧
    ((generateChartTool sampleConfig "html" false (.rendered [1] "inner" "id2" "ok")).content.all
      fun b => !b.isImageBlock) = true :=
  c7_html_block sampleConfig sampleConfig false [1] "inner" "id2" "ok" rfl

/-! ### The session transport registry (src/index.ts lines 177-256)

`startHttpServer` keeps `transports : Map<string, StreamableHTTPServerTransport>`.
The model identifies transports by an allocation counter; the SDK's
`randomUUID`-generated session id (delivered through `onsessioninitialized`
during the initialization handshake) is an argument of the step function.  The
header check reproduces the source's JavaScript truthiness: an absent header
and an empty-string header are both falsy. -/

inductive HttpMethod where
  | GET
  | POST
  | DELETE
  | OTHER
deriving DecidableEq

/-- An HTTP request to the `/mcp` endpoint: its method and the value of the
`mcp-session-id` header (`none` when the header is absent). -/
structure McpRequest where
  method : HttpMethod
  sessionId : Option String
deriving DecidableEq

/-- JavaScript truthiness of the session header value. -/
def headerTruthy : Option String → Bool
  | some s => s != ""
  | none => false

/-- The registry as an association list with map semantics: `mapSet`
overwrites, `mapDelete` removes the key. -/
abbrev Registry := List (String × Nat)

def mapHas (m : Registry) (k : String) : Bool :=
  m.any fun p => p.1 == k

def mapGet (m : Registry) (k : String) : Option Nat :=
  (m.find? fun p => p.1 == k).map fun p => p.2

def mapSet (m : Registry) (k : String) (v : Nat) : Registry :=
  (k, v) :: m.filter fun p => p.1 != k

def mapDelete (m : Registry) (k : String) : Registry :=
  m.filter fun p => p.1 != k

/-- The server state: the registry and the allocation counter for transport
identities (`nextTransport` is the identity the next created transport gets). -/
structure ServerState where
  transports : Registry
  nextTransport : Nat
deriving DecidableEq

/-- What handling one `/mcp` request does, besides updating the state. -/
inductive McpOutcome where
  | forwarded (transport : Nat)
  | createdAndForwarded (transport : Nat)
  | rejected (status : Nat) (code : Int) (message : String)
deriving DecidableEq

def McpOutcome.isRejectedOutcome : McpOutcome → Bool
  | .rejected _ _ _ => true
  | _ => false

/-- The `/mcp` branch of the request handler (src/index.ts lines 185-228):
a truthy session header found in the registry reuses the stored transport; a
POST without a truthy session header creates a new transport, whose
initialization handshake stores it under the SDK-generated session id
(`freshSessionId` models `randomUUID()`); everything else is rejected with
HTTP 400 and a JSON-RPC-shaped error object with code `-32000`. -/
def handleMcp (st : ServerState) (req : McpRequest) (freshSessionId : String) :
    ServerState × McpOutcome :=
  if headerTruthy req.sessionId && mapHas st.transports (req.sessionId.getD "") then
    (st, .forwarded ((mapGet st.transports (req.sessionId.getD "")).getD 0))
  else if !headerTruthy req.sessionId && req.method == HttpMethod.POST then
    ({ transports := mapSet st.transports freshSessionId st.nextTransport,
       nextTransport := st.nextTransport + 1 },
     .createdAndForwarded st.nextTransport)
  else
    (st, .rejected 400 (-32000)
      "Bad Request: No valid session. Send an initialization request first.")

/-- The transport's `onclose` callback (src/index.ts lines 204-208): when the
closing transport has a (truthy) session id, that id is deleted from the
registry. -/
def onTransportClose (st : ServerState) (transportSessionId : Option String) :
    ServerState :=
  if headerTruthy transportSessionId then
    { st with transports := mapDelete st.transports (transportSessionId.getD "") }
  else st

theorem mapGet_set_self (m : Registry) (k : String) (v : Nat) :
    mapGet (mapSet m k v) k = some v := by
  simp [mapGet, mapSet, List.find?]

theorem mapHas_set_self (m : Registry) (k : String) (v : Nat) :
    mapHas (mapSet m k v) k = true := by
  simp [mapHas, mapSet, List.any]

theorem mapGet_delete_self (m : Registry) (k : String) :
    mapGet (mapDelete m k) k = none := by
  simp [mapGet, mapDelete]

theorem mapHas_delete_self (m : Registry) (k : String) :
    mapHas (mapDelete m k) k = false := by
  simp [mapHas, mapDelete]

/-- C3: the session registry state machine.  A POST without a session header
creates exactly one new transport (the allocation counter advances by one) and
stores it keyed by the freshly generated session id of its initialization
handshake; every subsequent request carrying that id is forwarded to the same
stored transport with the state unchanged (no second transport is created);
transport closure removes the entry, and a later request carrying the stale id
is rejected as an unknown session, again without touching the state. -/
theorem c3_session_lifecycle (st : ServerState) (fresh : String) (hf : fresh ≠ "")
    (m m2 : HttpMethod) (f2 f3 : String) :
    handleMcp st ⟨HttpMethod.POST, none⟩ fresh =
      ({ transports := mapSet st.transports fresh st.nextTransport,
         nextTransport := st.nextTransport + 1 },
       McpOutcome.createdAndForwarded st.nextTransport) ∧
    handleMcp { transports := mapSet st.transports fresh st.nextTransport,
                nextTransport := st.nextTransport + 1 } ⟨m, some fresh⟩ f2 =
      ({ transports := mapSet st.transports fresh st.nextTransport,
         nextTransport := st.nextTransport + 1 },
       McpOutcome.forwarded st.nextTransport) ∧
    onTransportClose { transports := mapSet st.transports fresh st.nextTransport,
                       nextTransport := st.nextTransport + 1 } (some fresh) =
      { transports := mapDelete (mapSet st.transports fresh st.nextTransport) fresh,
        nextTransport := st.nextTransport + 1 } ∧
    mapGet (mapDelete (mapSet st.transports fresh st.nextTransport) fresh) fresh = none ∧
    handleMcp { transports := mapDelete (mapSet st.transports fresh st.nextTransport) fresh,
                nextTransport := st.nextTransport + 1 } ⟨m2, some fresh⟩ f3 =
      ({ transports := mapDelete (mapSet st.transports fresh st.nextTransport) fresh,
         nextTransport := st.nextTransport + 1 },
       McpOutcome.rejected 400 (-32000)
         "Bad Request: No valid session. Send an initialization request first.") := by
  have hft : headerTruthy (some fresh) = true := by
    simp [headerTruthy, bne_iff_ne, hf]
  refine ⟨?_, ?_, ?_, mapGet_delete_self _ _, ?_⟩
  · simp [handleMcp, headerTruthy]
  · simp [handleMcp, hft, mapHas_set_self, mapGet_set_self]
  · simp [onTransportClose, hft]
  · simp [handleMcp, hft, mapHas_delete_self]

/-- Witness for `c3_session_lifecycle`: an empty registry, a POST without a
header, then a GET carrying the generated session id. -/
theorem c3_witness :
    handleMcp ⟨[], 0⟩ ⟨HttpMethod.POST, none⟩ "s1" =
      ({ transports := mapSet [] "s1" 0, nextTransport := 1 },
       McpOutcome.createdAndForwarded 0) ∧
    handleMcp { transports := mapSet [] "s1" 0, nextTransport := 1 }
        ⟨HttpMethod.GET, some "s1"⟩ "s2" =
      ({ transports := mapSet [] "s1" 0, nextTransport := 1 },
       McpOutcome.forwarded 0) :=
  ⟨(c3_session_lifecycle ⟨[], 0⟩ "s1" (by decide) HttpMethod.GET HttpMethod.GET "s2" "s3").1,
   (c3_session_lifecycle ⟨[], 0⟩ "s1" (by decide) HttpMethod.GET HttpMethod.GET "s2" "s3").2.1⟩

/-- C4 counterexample: a POST carrying the session header with the *empty*
value, an id certainly not present in the (empty) registry.  The claim says
such a request is rejected with HTTP 400 before reaching any transport, but
the source tests the header with JavaScript truthiness, treats the empty
header like an absent one, and creates a fresh transport instead of
rejecting. -/
theorem c4_empty_header_cex :
    (some "" : Option String) ≠ none ∧
    mapHas ([] : Registry) "" = false ∧
    (handleMcp ⟨[], 0⟩ ⟨HttpMethod.POST, some ""⟩ "u1").2 =
      McpOutcome.createdAndForwarded 0 ∧
    ((handleMcp ⟨[], 0⟩ ⟨HttpMethod.POST, some ""⟩ "u1").2).isRejectedOutcome = false :=
  ⟨by decide, rfl, rfl, rfl⟩

/-- C4 (amended): every request to `/mcp` carrying a *non-empty* session
header whose id is not in the registry, and every non-POST request without a
truthy session header, is answered with HTTP status 400 and a JSON-RPC-shaped
error object with code `-32000`, leaving the state unchanged and reaching no
transport.  (The code treats an empty-string header value like an absent
header, so a POST with an empty header creates a session instead.) -/
theorem c4_bad_session_rejected (st : ServerState) (req : McpRequest) (fresh : String) :
    (∀ sid, req.sessionId = some sid → sid ≠ "" → mapHas st.transports sid = false →
      handleMcp st req fresh = (st, McpOutcome.rejected 400 (-32000)
        "Bad Request: No valid session. Send an initialization request first.")) ∧
    (headerTruthy req.sessionId = false → req.method ≠ HttpMethod.POST →
      handleMcp st req fresh = (st, McpOutcome.rejected 400 (-32000)
        "Bad Request: No valid session. Send an initialization request first.")) := by
  constructor
  · intro sid hsid hne hhas
    simp [handleMcp, hsid, headerTruthy, bne_iff_ne, hne, hhas]
  · intro h1 h2
    simp [handleMcp, h1, beq_iff_eq, h2]

/-- Witness for `c4_bad_session_rejected`: a GET with an unknown id, and a
GET with no header at all. -/
theorem c4_witness :
    handleMcp ⟨[], 0⟩ ⟨HttpMethod.GET, some "ghost"⟩ "u2" =
      (⟨[], 0⟩, McpOutcome.rejected 400 (-32000)
        "Bad Request: No valid session. Send an initialization request first.") ∧
    handleMcp ⟨[], 0⟩ ⟨HttpMethod.GET, none⟩ "u3" =
      (⟨[], 0⟩, McpOutcome.rejected 400 (-32000)
        "Bad Request: No valid session. Send an initialization request first.") :=
  ⟨(c4_bad_session_rejected ⟨[], 0⟩ ⟨HttpMethod.GET, some "ghost"⟩ "u2").1 "ghost" rfl
      (by decide) rfl,
   (c4_bad_session_rejected ⟨[], 0⟩ ⟨HttpMethod.GET, none⟩ "u3").2 rfl (by decide)⟩

/-! ### Process startup: transport and port selection (src/index.ts lines 12-17, 166-174) -/

/-- Models `arg.startsWith(flag)`, computed on the character lists. -/
def strStarts (s flag : String) : Bool :=
  listStarts flag.toList s.toList

/-- Models `args.find(arg => arg.startsWith(flag))`. -/
def argsFindFlag (args : List String) (flag : String) : Option String :=
  args.find? fun a => strStarts a flag

/-- Models `s.split('=')[1]` (`none` models `undefined`). -/
def splitEqIdx1 (s : String) : Option String :=
  (s.splitOn "=").get? 1

/-- JavaScript `a || b` on a possibly-undefined string: falsy (absent or
empty) falls through to the right operand. -/
def jsOrStr (a : Option String) (b : String) : String :=
  match a with
  | some s => if s == "" then b else s
  | none => b

/-- Models `const transport = transportArg?.split('=')[1] || 'stdio'`. -/
def transportOf (args : List String) : String :=
  jsOrStr ((argsFindFlag args "--transport=").bind splitEqIdx1) "stdio"

/-- The string handed to `parseInt`:
`process.env.PORT || portArg?.split('=')[1] || '3000'`. -/
def portStringOf (envPORT : Option String) (args : List String) : String :=
  jsOrStr envPORT (jsOrStr ((argsFindFlag args "--port=").bind splitEqIdx1) "3000")

/-- Models `parseInt(s, 10)`: leading whitespace, an optional sign, then decimal
digits; `none` models `NaN` (no digits). -/
def parseIntJS (s : String) : Option Int :=
  let cs := skipWs s.toList
  let sgn : Bool × List Char :=
    match cs with
    | c :: r => if c == '-' then (true, r) else if c == '+' then (false, r) else (false, cs)
    | [] => (false, [])
  let p := takeDigits sgn.2
  if p.1.isEmpty then none
  else some (if sgn.1 then -(digitsToNat p.1 : Int) else (digitsToNat p.1 : Int))

/-- Models `const port = parseInt(process.env.PORT || portArg?.split('=')[1] || '3000', 10)`. -/
def portOf (envPORT : Option String) (args : List String) : Option Int :=
  parseIntJS (portStringOf envPORT args)

inductive TransportMode where
  | stdio
  | streamableHttp
deriving DecidableEq

/-- Models `main` (src/index.ts lines 166-174): the HTTP server only when the
transport string is exactly `streamable-http`, stdio otherwise. -/
def mainTransportMode (args : List String) : TransportMode :=
  if transportOf args == "streamable-http" then TransportMode.streamableHttp
  else TransportMode.stdio

/-- C8: with no transport flag the stdio transport is selected; in HTTP mode
with neither a `--port=` argument nor the `PORT` environment override the
listener port is 3000; and when both are supplied, the environment override
alone determines the port string (the well-defined precedence). -/
theorem c8_startup_defaults (args : List String) (e : String) :
    (argsFindFlag args "--transport=" = none →
      mainTransportMode args = TransportMode.stdio) ∧
    (argsFindFlag args "--port=" = none →
      portOf none args = some 3000) ∧
    (e ≠ "" → ∀ args2 : List String, portStringOf (some e) args2 = e) := by
  refine ⟨?_, ?_, ?_⟩
  · intro h
    simp [mainTransportMode, transportOf, h, jsOrStr]
  · intro h
    simp [portOf, portStringOf, h, jsOrStr]
    rfl
  · intro he args2
    simp [portStringOf, jsOrStr, beq_iff_eq, he]

/-- Witness for `c8_startup_defaults` at concrete argument lists and a
concrete environment override. -/
theorem c8_witness :
    mainTransportMode ["--port=1234"] = TransportMode.stdio ∧
    portOf none ["--transport=streamable-http"] = some 3000 ∧
    portStringOf (some "8080") ["--port=1234"] = "8080" :=
  ⟨(c8_startup_defaults ["--port=1234"] "8080").1 rfl,
   (c8_startup_defaults ["--transport=streamable-http"] "8080").2.1 rfl,
   (c8_startup_defaults ["--port=1234"] "8080").2.2 (by decide) ["--port=1234"]⟩

end ChartServer
